import Mathlib

/-!
Verification of `getresults_tx/event_handlers.py` (django-lis/getresults-distribute).

Shallow embedding: the Python methods of `RemoteFolderEventHandler` are
translated into executable Lean functions.  Python exceptions are modelled
with `Except PyErr`; external capabilities (the ssh connection, the scp
transport, the filesystem, the mime classifier, the pluggable folder
handler) are parameters gathered in `Env`.  Side effects of one
`process_added` run are recorded, in execution order, as a list of `Eff`.
-/

/-- Python exceptions that the handler code raises or catches. -/
inductive PyErr
  | typeError (msg : String)
  | valueError
  | keyError
  | attributeError (msg : String)
  | isADirectoryError
  | otherError (msg : String)
deriving DecidableEq

/-- Python values in positions where the code is duck-typed: a routing
selection may be a bare string, a list or tuple, or any other object
(collapsed to `pynone`). -/
inductive PyVal
  | str : String → PyVal
  | tup : List PyVal → PyVal
  | pynone : PyVal

/-- Python `s.split(sep)` for a one-character separator: accumulator pass
over the characters. -/
def pySplitAux (sep : Char) : List Char → List Char → List (List Char)
  | [], acc => [acc.reverse]
  | c :: cs, acc =>
    if c = sep then acc.reverse :: pySplitAux sep cs []
    else pySplitAux sep cs (c :: acc)

/-- Python `s.split(sep)` (single-character separator), as used at
`event.src_path.split('/')`, `destination_dir.split('/')` and
`filename.split('.')`. -/
def pySplit (sep : Char) (s : String) : List String :=
  (pySplitAux sep s.toList []).map String.mk

/-- Python `s.split('/')[-1:][0]`: the last segment of a slash-separated
path. -/
def lastSeg (s : String) : String :=
  (pySplit '/' s).getLastD ""

/-- `os.path.join` for two components (the only arity the handler uses). -/
def ospath_join (a b : String) : String :=
  if b.toList.head? = some '/' then b
  else if a.toList = [] ∨ a.toList.getLast? = some '/' then a ++ b
  else a ++ "/" ++ b

/-- The filesystem as the handler observes it: `os.path.isfile` and the
`os.stat` fields that `statinfo` reads (size, mtime; the timezone
localisation is abstracted into the mtime value). -/
structure FS where
  isFile : String → Bool
  size : String → Nat
  mtime : String → Nat

/-- External capabilities consumed by one `process_added` run:
`self.connect()` (ssh), `self.folder_handler.select(...)`, `scp.put`,
`magic.from_file(path, mime=True)`, plus the ambient identity read by
`update_history` (`socket.gethostname()`, `self.user`, `timezone.now()`). -/
structure Env where
  connectR : Except PyErr Unit
  select : String → String → String → Except PyErr PyVal
  scpPut : String → String → Except PyErr Unit
  mime_of : String → String
  gethostname : String
  user : String
  now : Nat

/-- The configuration attributes of a `RemoteFolderEventHandler` instance
that the translated methods read. -/
structure Handler where
  hostname : String
  source_dir : String
  destination_dir : String
  archive_dir : Option String
  mime_types : Option (List String)

/-- The dict built by `statinfo`, with the `archive_filename` key that
`process_added` adds later. -/
structure FileInfo where
  path : String
  filename : String
  size : Nat
  timestamp : Nat
  archive_filename : Option String := none

/-- The `History` model row saved by `update_history` (`archive_name`
models `history.archive.name`, set only when an archive_dir is
configured). -/
structure History where
  hostname : String
  remote_hostname : String
  path : String
  remote_path : String
  remote_folder : String
  remote_folder_hint : Option PyVal
  archive_path : Option String
  filename : String
  filesize : Nat
  filetimestamp : Nat
  mime_type : String
  status : String
  sent_datetime : Nat
  user : String
  archive_name : Option String

/-- The `TX_SENT` status constant imported from `models`. -/
def TX_SENT : String := "TX_SENT"

/-- Observable side effects of one `process_added` run, in execution
order. -/
inductive Eff
  | connect
  | saveHistory (h : History)
  | rename (src dst : String)
  | remove (p : String)

/-- The shape of an effect, without its payload. -/
inductive EffKind
  | connect
  | save
  | rename
  | remove
deriving DecidableEq

/-- Project an effect to its shape. -/
def Eff.kind : Eff → EffKind
  | .connect => .connect
  | .saveHistory _ => .save
  | .rename _ _ => .rename
  | .remove _ => .remove

/-- Number of `History.save()` calls in a trace. -/
def countSave (tr : List Eff) : Nat :=
  (tr.filter (fun e => e.kind = EffKind.save)).length

/-- Boolean prefix test on character lists. -/
def listPrefix : List Char → List Char → Bool
  | [], _ => true
  | _ :: _, [] => false
  | a :: as, b :: bs => a == b && listPrefix as bs

/-- Boolean substring test on character lists, modelling the Python
`needle in str(e)` containment check. -/
def listInfix (n : List Char) : List Char → Bool
  | [] => listPrefix n []
  | b :: bs => listPrefix n (b :: bs) || listInfix n bs

/-- Line 107, `mime_type in self.mime_types or self.mime_types is None`:
Python evaluates the membership test first, so when `mime_types` is `None`
it raises TypeError before the `is None` escape is reached. -/
def mimeCheck (mime_types : Option (List String)) (mime : String) : Except PyErr Bool :=
  match mime_types with
  | none => .error (.typeError "argument of type NoneType is not iterable")
  | some ts => .ok (ts.contains mime)

/-- `select_destination_dir` (lines 118-129): call the folder handler;
catch a TypeError whose text contains `object is not callable` and fall
back to `self.destination_dir`; re-raise anything else. -/
def select_destination_dir (env : Env) (h : Handler) (filename mime : String) :
    Except PyErr PyVal :=
  match env.select filename mime h.destination_dir with
  | .ok v => .ok v
  | .error (.typeError msg) =>
    if listInfix ("object is not callable".toList) msg.toList then
      .ok (.str h.destination_dir)
    else
      .error (.typeError msg)
  | .error e => .error e

/-- `selection[0] if isinstance(selection, (list, tuple)) else selection`
(lines 158-161); indexing an empty sequence raises IndexError. -/
def sel_first : PyVal → Except PyErr PyVal
  | .tup [] => .error (.otherError "IndexError")
  | .tup (x :: _) => .ok x
  | v => .ok v

/-- `os.path.join` demands a string: joining a non-string raises
TypeError. -/
def as_str : PyVal → Except PyErr String
  | .str s => .ok s
  | _ => .error (.typeError "expected str")

/-- `statinfo` (lines 176-183): stats `join(self.source_dir, filename)`
and records the `path` argument with the filename, size and mtime. -/
def statinfo (fs : FS) (h : Handler) (path filename : String) : FileInfo :=
  let p := ospath_join h.source_dir filename
  { path := path
    filename := filename
    size := fs.size p
    timestamp := fs.mtime p
    archive_filename := none }

/-- Return shape of `put`: line 165 returns a bare `None`, line 174
returns the `(fileinfo, selection)` pair. -/
inductive PutRet
  | bare_none
  | pair (fi : Option FileInfo) (sel : PyVal)

/-- `put` (lines 153-174): resolve the destination, abort with a bare
`None` when the source is no longer a file, stat it, copy it, suppress
only IsADirectoryError (as a null fileinfo in the pair). -/
def put (env : Env) (fs : FS) (h : Handler) (filename mime : String) :
    Except PyErr PutRet :=
  match select_destination_dir env h filename mime with
  | .error e => .error e
  | .ok selection =>
    match sel_first selection with
    | .error e => .error e
    | .ok ddv =>
      match as_str ddv with
      | .error e => .error e
      | .ok destination_dir =>
        let source_filename := ospath_join h.source_dir filename
        let destination_filename := ospath_join destination_dir filename
        if fs.isFile source_filename = false then
          .ok .bare_none
        else
          let fileinfo : FileInfo := statinfo fs h h.source_dir filename
          match env.scpPut source_filename destination_filename with
          | .ok _ => .ok (.pair (some fileinfo) selection)
          | .error .isADirectoryError => .ok (.pair none selection)
          | .error e => .error e

/-- Python tuple unpacking `a, b = v` as used in `update_history`:
succeeds on any sequence of length exactly two — including a
two-character string, which unpacks character-wise; other lengths raise
ValueError; a non-iterable raises TypeError. -/
def unpack2 : PyVal → Except PyErr (Option (PyVal × PyVal))
  | .tup [a, b] => .ok (some (a, b))
  | .tup _ => .ok none
  | .str s =>
    match s.toList with
    | [a, b] => .ok (some (.str (String.mk [a]), .str (String.mk [b])))
    | _ => .ok none
  | .pynone => .error (.typeError "cannot unpack non-iterable NoneType object")

/-- `update_history` (lines 185-212): normalise the selection, derive
`remote_folder` from the (possibly re-bound) destination, build the
`History` row — note `remote_path=self.destination_dir`, the configured
attribute — and set `history.archive.name` when an archive_dir is
configured (KeyError if `archive_filename` was never stored). -/
def update_history (env : Env) (h : Handler) (fi : FileInfo) (status : String)
    (sel : PyVal) (mime : String) : Except PyErr History :=
  match unpack2 sel with
  | .error e => .error e
  | .ok u =>
    let dd : PyVal := match u with | some (a, _) => a | none => sel
    let hint : Option PyVal := match u with | some (_, b) => some b | none => none
    let remote_folder : String :=
      match dd with
      | .str s => lastSeg s
      | _ => "default"
    let mkRow : Option String → History := fun archive_name =>
      { hostname := env.gethostname
        remote_hostname := h.hostname
        path := h.source_dir
        remote_path := h.destination_dir
        remote_folder := remote_folder
        remote_folder_hint := hint
        archive_path := h.archive_dir
        filename := fi.filename
        filesize := fi.size
        filetimestamp := fi.timestamp
        mime_type := mime
        status := status
        sent_datetime := env.now
        user := env.user
        archive_name := archive_name }
    match h.archive_dir with
    | some _ =>
      match fi.archive_filename with
      | some a => .ok (mkRow (some ("archive/" ++ a)))
      | none => .error .keyError
    | none => .ok (mkRow none)

/-- A `RemoteFolder` model row as read by `destination_subdirs`:
`base_path`, `folder`, `name`, `file_hint`. -/
structure RemoteFolderRow where
  base_path : String
  folder : String
  name : String
  file_hint : String

/-- The `_destination_subdirs` instance dict: base destination to an inner
map from rule keys to subfolder paths. -/
def SubdirCache := List (String × List (String × String))

/-- The heterogeneous result of `destination_subdir`: indexing the outer
dict can yield either the inner dict (key equal to the base destination)
or, after the KeyError fallback, the bare destination string. -/
inductive SubdirResult
  | dict (m : List (String × String))
  | str (s : String)

/-- The `destination_subdirs` property (lines 131-141): rebuild when the
cached entry is missing or falsy; the rebuild loop body dereferences
`self.remote_folder` and `self._remote_subfolders`, neither of which is
defined on the class, so the first matching `RemoteFolder` row raises
AttributeError; with no matching rows the loop never runs and the dict
maps the base destination to an empty inner dict. -/
def destination_subdirs (h : Handler) (cache : SubdirCache)
    (rows : List RemoteFolderRow) : Except PyErr SubdirCache :=
  match List.lookup h.destination_dir cache with
  | some (_ :: _) => .ok cache
  | _ =>
    match rows.filter (fun r => r.base_path == h.destination_dir) with
    | [] => .ok [(h.destination_dir, [])]
    | _ :: _ =>
      .error (.attributeError
        "RemoteFolderEventHandler object has no attribute remote_folder")

/-- `destination_subdir` (lines 143-151): index the property result by
`key`, catching only KeyError and falling back to `self.destination_dir`;
an AttributeError from the property propagates. -/
def destination_subdir (h : Handler) (cache : SubdirCache)
    (rows : List RemoteFolderRow) (key : String) : Except PyErr SubdirResult :=
  match destination_subdirs h cache rows with
  | .error e => .error e
  | .ok d =>
    match List.lookup key d with
    | some m => .ok (.dict m)
    | none => .ok (.str h.destination_dir)

/-- Glob matching with `*` wildcards (fnmatch semantics for the patterns
the handler uses), modelling the external watch capability pre-filter
applied to `event.src_path`. -/
def globMatch : List Char → List Char → Bool
  | [], s => s.isEmpty
  | '*' :: ps, s => (s.tails).any (fun t => globMatch ps t)
  | _ :: _, [] => false
  | p :: ps, c :: cs => p == c && globMatch ps cs

/-- The pattern list the handler registers: `patterns=['*.*']`
(line 90). -/
def handlerPatterns : List String := ["*.*"]

/-- Modelled from the spec: the watch capability delivers an event to the
handler when some registered pattern matches the source path and, with
`ignore_directories=True` (line 47), the event is not for a directory. -/
def dispatchEvent (is_directory : Bool) (src_path : String) : Bool :=
  !is_directory && handlerPatterns.any (fun p => globMatch p.toList src_path.toList)

/-- Character class of the regex fragment `[A-Z0-9]`. -/
def isUpperOrDigit (c : Char) : Bool :=
  ('A' ≤ c && c ≤ 'Z') || ('0' ≤ c && c ≤ '9')

/-- The alphabet `string.ascii_uppercase + string.digits` that the random
suffix is drawn from. -/
def upperAlnum : List Char :=
  ['A', 'B', 'C', 'D', 'E', 'F', 'G', 'H', 'I', 'J', 'K', 'L', 'M',
   'N', 'O', 'P', 'Q', 'R', 'S', 'T', 'U', 'V', 'W', 'X', 'Y', 'Z',
   '0', '1', '2', '3', '4', '5', '6', '7', '8', '9']

/-- `archive_filename` (lines 214-220), with the five random draws passed
in as `suffix`: split on `.`; exactly one dot gives `(stem, ext)`, any
other shape raises ValueError and is treated as extension-less; rejoin as
`stem_SUFFIX.ext`. -/
def archive_filename (suffix : List Char) (filename : String) : String :=
  match pySplit '.' filename with
  | [f, ext] => f ++ "_" ++ String.mk suffix ++ "." ++ ext
  | _ => filename ++ "_" ++ String.mk suffix ++ "."

/-- `process_added` (lines 101-116), with the random suffix draw passed
in: connect, classify, apply the mime policy, `put`, then dispose and
audit.  Returns the ordered effect trace of a completed run, or the
propagated exception. -/
def process_added (env : Env) (fs : FS) (h : Handler) (suffix : List Char)
    (src_path : String) : Except PyErr (List Eff) :=
  match env.connectR with
  | .error e => .error e
  | .ok _ =>
    let filename := lastSeg src_path
    let path := ospath_join h.source_dir filename
    let mime := env.mime_of path
    match mimeCheck h.mime_types mime with
    | .error e => .error e
    | .ok allowed =>
      if allowed then
        match put env fs h filename mime with
        | .error e => .error e
        | .ok .bare_none =>
          .error (.typeError "cannot unpack non-iterable NoneType object")
        | .ok (.pair fi sel) =>
          match fi with
          | some fi0 =>
            match h.archive_dir with
            | some ad =>
              let afn := archive_filename suffix filename
              let fi1 := { fi0 with archive_filename := some afn }
              match update_history env h fi1 TX_SENT sel mime with
              | .error e => .error e
              | .ok hist =>
                .ok [Eff.connect, Eff.saveHistory hist,
                     Eff.rename path (ospath_join ad afn)]
            | none => .ok [Eff.connect, Eff.remove path]
          | none => .ok [Eff.connect]
      else
        .ok [Eff.connect]

/-! ### Concrete fixtures used in counterexamples and witnesses -/

/-- A filesystem on which every path is an ordinary file. -/
def fsT : FS := { isFile := fun _ => true, size := fun _ => 100, mtime := fun _ => 7 }

/-- The same filesystem after the source file vanished. -/
def fsGone : FS := { fsT with isFile := fun _ => false }

/-- A benign environment: connection succeeds, the folder handler returns
the default destination as a bare string, scp succeeds, every file
classifies as text/csv. -/
def envT : Env :=
  { connectR := .ok ()
    select := fun _ _ d => .ok (.str d)
    scpPut := fun _ _ => .ok ()
    mime_of := fun _ => "text/csv"
    gethostname := "local"
    user := "u"
    now := 5 }

/-- A handler configured with no archive_dir and a csv allow-set. -/
def hT : Handler :=
  { hostname := "remote"
    source_dir := "in"
    destination_dir := "/remote/in"
    archive_dir := none
    mime_types := some ["text/csv"] }

/-- The same handler with an archive_dir configured. -/
def hTA : Handler := { hT with archive_dir := some "/arch" }

/-- The same handler with no mime-type allow-set (`mime_types = None`). -/
def hNoneT : Handler := { hT with mime_types := none }

/-- A plain fileinfo dict, as `statinfo` would build it. -/
def fiPlain : FileInfo := { path := "in", filename := "f", size := 1, timestamp := 2 }

/-- The guard of the except-clause at lines 125-129: a TypeError whose
text contains `object is not callable`. -/
def notCallable : PyErr → Bool
  | .typeError msg => listInfix ("object is not callable".toList) msg.toList
  | _ => false

/-- The folder hint that `update_history` records, read off the unpack
result. -/
def unpackHint (sel : PyVal) : Option PyVal :=
  match unpack2 sel with
  | .ok (some (_, b)) => some b
  | _ => none

/-- The spec-side normalisation of a routing selection, amended to the
actual Python unpack semantics: a two-element sequence gives its second
element, a two-character string unpacks character-wise, anything else
leaves the hint absent. -/
def pyHint : PyVal → Option PyVal
  | .tup [_, b] => some b
  | .str s =>
    match s.toList with
    | [_, b] => some (.str (String.mk [b]))
    | _ => none
  | _ => none

/-- An environment whose folder handler is absent: invoking it raises the
not-a-callable TypeError. -/
def envNC : Env :=
  { envT with select := fun _ _ _ => .error (.typeError "NoneType object is not callable") }

/-- An environment whose folder handler raises an unrelated exception. -/
def envBoom : Env :=
  { envT with select := fun _ _ _ => .error (.otherError "boom") }

/-- The History row saved for selection `("/remote/in/pdfs", "pdf")` under
`envT`, `hT`, `fiPlain`. -/
def hist9W : History :=
  { hostname := "local", remote_hostname := "remote", path := "in",
    remote_path := "/remote/in", remote_folder := "pdfs",
    remote_folder_hint := some (.str "pdf"), archive_path := none,
    filename := "f", filesize := 1, filetimestamp := 2, mime_type := "m",
    status := "S", sent_datetime := 5, user := "u", archive_name := none }

/-- The History row saved for the bare routed path `"/remote/in/sub"`
under `envT`, `hT`, `fiPlain`. -/
def hist10W : History :=
  { hostname := "local", remote_hostname := "remote", path := "in",
    remote_path := "/remote/in", remote_folder := "sub",
    remote_folder_hint := none, archive_path := none,
    filename := "f", filesize := 1, filetimestamp := 2, mime_type := "m",
    status := "S", sent_datetime := 5, user := "u", archive_name := none }

/-- The History row saved by the archive-enabled run of `process_added`
on `in/report.csv` under `envT`, `fsT`, `hTA` with suffix `AB123`. -/
def histW4 : History :=
  { hostname := "local", remote_hostname := "remote", path := "in",
    remote_path := "/remote/in", remote_folder := "in",
    remote_folder_hint := none, archive_path := some "/arch",
    filename := "report.csv", filesize := 100, filetimestamp := 7,
    mime_type := "text/csv", status := "TX_SENT", sent_datetime := 5,
    user := "u", archive_name := some "archive/report_AB123.csv" }

/-! ### Helper lemmas -/

lemma unpackHint_eq_pyHint (sel : PyVal) : unpackHint sel = pyHint sel := by
  cases sel with
  | pynone => rfl
  | tup l => rcases l with _ | ⟨a, _ | ⟨b, _ | ⟨c, r⟩⟩⟩ <;> rfl
  | str s =>
    rcases hl : s.data with _ | ⟨a, _ | ⟨b, _ | ⟨c, r⟩⟩⟩ <;>
      simp [unpackHint, pyHint, unpack2, String.toList, hl]

lemma tl_append (a b : String) : (a ++ b).toList = a.toList ++ b.toList := rfl

lemma mk_toList (l : List Char) : (String.mk l).toList = l := rfl

lemma mem_upperAlnum (c : Char) (hc : upperAlnum.contains c = true) :
    isUpperOrDigit c = true := by
  have hmem : c ∈ upperAlnum := by simpa using hc
  fin_cases hmem <;> rfl

lemma glob_star_unfold (ps s : List Char) :
    globMatch ('*' :: ps) s = s.tails.any (fun t => globMatch ps t) := by
  cases s <;> rfl

lemma glob_star_one (cs : List Char) : globMatch ['*'] cs = true := by
  induction cs with
  | nil => rfl
  | cons c cs ih =>
    rw [glob_star_unfold, List.tails_cons, List.any_cons, ← glob_star_unfold, ih]
    simp

lemma glob_pat_cons (c : Char) (cs : List Char) :
    globMatch ['*', '.', '*'] (c :: cs)
      = (globMatch ['.', '*'] (c :: cs) || globMatch ['*', '.', '*'] cs) := by
  rw [glob_star_unfold, List.tails_cons, List.any_cons, ← glob_star_unfold]

lemma glob_dot_head (c : Char) (cs : List Char) :
    globMatch ['.', '*'] (c :: cs) = ('.' == c) := by
  show (('.' == c) && globMatch ['*'] cs) = _
  rw [glob_star_one, Bool.and_true]

lemma glob_star_dot_star (l : List Char) :
    globMatch ['*', '.', '*'] l = true ↔ '.' ∈ l := by
  induction l with
  | nil =>
    simp [show globMatch ['*', '.', '*'] ([] : List Char) = false from rfl]
  | cons c cs ih =>
    rw [glob_pat_cons, glob_dot_head]
    simp only [Bool.or_eq_true, beq_iff_eq, ih, List.mem_cons]

lemma process_added_archive_trace
    (env : Env) (fs : FS) (h : Handler) (sfx : List Char) (src : String)
    (fi : FileInfo) (sel : PyVal) (ad : String) (hist : History)
    (hc : env.connectR = Except.ok ())
    (hm : mimeCheck h.mime_types
        (env.mime_of (ospath_join h.source_dir (lastSeg src))) = Except.ok true)
    (hp : put env fs h (lastSeg src)
        (env.mime_of (ospath_join h.source_dir (lastSeg src)))
        = Except.ok (.pair (some fi) sel))
    (ha : h.archive_dir = some ad)
    (hu : update_history env h
        { fi with archive_filename := some (archive_filename sfx (lastSeg src)) }
        TX_SENT sel (env.mime_of (ospath_join h.source_dir (lastSeg src)))
        = Except.ok hist) :
    process_added env fs h sfx src
      = Except.ok [Eff.connect, Eff.saveHistory hist,
          Eff.rename (ospath_join h.source_dir (lastSeg src))
            (ospath_join ad (archive_filename sfx (lastSeg src)))] := by
  simp [process_added, hc, hm, hp, ha, hu]

lemma update_history_archive_name
    (env : Env) (h : Handler) (fi : FileInfo) (st : String) (sel : PyVal)
    (mime : String) (hist : History) (ad a : String)
    (ha : h.archive_dir = some ad) (haf : fi.archive_filename = some a)
    (hu : update_history env h fi st sel mime = Except.ok hist) :
    hist.archive_name = some ("archive/" ++ a) := by
  cases hun : unpack2 sel with
  | error e => simp [update_history, hun] at hu
  | ok u =>
    simp [update_history, hun, ha, haf] at hu
    rw [← hu]

/-! ### Claims -/


/-- Claim C1, counterexample: a fully successful transfer (transport ran,
non-null fileinfo, local file then removed) with no archive_dir
configured produces an effect trace with zero History saves, not the
exactly one save the claim demands for this case. -/
theorem no_audit_when_archive_unset_cex :
    (process_added envT fsT hT ['A', 'B', '1', '2', '3'] "in/report.csv").map
        (List.map Eff.kind) = Except.ok [EffKind.connect, EffKind.remove]
    ∧ (process_added envT fsT hT ['A', 'B', '1', '2', '3'] "in/report.csv").map
        countSave = Except.ok 0 := by
  exact ⟨rfl, rfl⟩

/-- Claim C2, code bug: with `mime_types = None` the membership test
`mime_type in self.mime_types` is evaluated before the `is None` escape,
so `process_added` raises TypeError instead of proceeding
unconditionally. -/
theorem mime_allow_all_raises_type_error :
    (∀ m : String, mimeCheck none m
        = Except.error (.typeError "argument of type NoneType is not iterable"))
    ∧ process_added envT fsT hNoneT ['A'] "in/report.csv"
        = Except.error (.typeError "argument of type NoneType is not iterable") := by
  exact ⟨fun _ => rfl, rfl⟩

/-- Claim C3, code bug: when the source path no longer names an ordinary
file, `put` returns a bare `None` (line 165) instead of the contractual
`(None, selection)` pair, and the tuple unpacking at the call site in
`process_added` then raises TypeError rather than returning quietly. -/
theorem put_returns_bare_none_on_missing_source :
    put envT fsGone hT "report.csv" "text/csv" = Except.ok PutRet.bare_none
    ∧ process_added envT fsGone hT ['A'] "in/report.csv"
        = Except.error (.typeError "cannot unpack non-iterable NoneType object") := by
  exact ⟨rfl, rfl⟩

/-- Claim C4, counterexample: on a successful transfer with archiving
enabled, the effect trace is connect, then the History save, then the
rename into the archive directory — the record is emitted before the
archival rename, not after it as the claim states. -/
theorem record_saved_before_rename_cex :
    (process_added envT fsT hTA ['A', 'B', '1', '2', '3'] "in/report.csv").map
        (List.map Eff.kind)
      = Except.ok [EffKind.connect, EffKind.save, EffKind.rename] := by
  exact rfl

/-- Claim C7, code bug: with one matching RemoteFolder rule, looking up
either the rule name or the file hint raises AttributeError (the rebuild
loop dereferences the undefined `self.remote_folder` and
`self._remote_subfolders`); with no matching rules the KeyError fallback
returns the bare destination for any key that is not the base path. -/
theorem destination_subdir_attribute_error :
    destination_subdir hT [] [⟨"/remote/in", "F", "results", "RS"⟩] "results"
      = Except.error (.attributeError
          "RemoteFolderEventHandler object has no attribute remote_folder")
    ∧ destination_subdir hT [] [⟨"/remote/in", "F", "results", "RS"⟩] "RS"
      = Except.error (.attributeError
          "RemoteFolderEventHandler object has no attribute remote_folder")
    ∧ destination_subdir hT [] [] "results" = Except.ok (.str "/remote/in") := by
  exact ⟨rfl, rfl, rfl⟩

/-- Claim C8, counterexample: the default pattern list `['*.*']` does not
match a file whose path contains no dot, so a create event for `noext` is
never dispatched to the handler, contradicting match-all. -/
theorem default_pattern_misses_dotless_cex :
    dispatchEvent false "noext" = false
    ∧ globMatch "*.*".toList "noext".toList = false := by
  exact ⟨rfl, rfl⟩

/-- Claim C9, counterexample: the two-character bare string `"/x"` is not
a pair, yet tuple unpacking splits it character-wise and the saved record
carries folder_hint `"x"`, not None. -/
theorem folder_hint_two_char_string_cex :
    (update_history envT hT fiPlain "S" (.str "/x") "m").map
        History.remote_folder_hint
      = Except.ok (some (.str "x")) := by
  exact rfl

/-- Claim C1 (amended): an AuditRecord (History row) is saved if and only
if the transport step succeeded with a non-null fileinfo AND an
archive_dir is configured — exactly one save in that case; with no
archive_dir the source file is deleted and no record is saved, and
policy-skipped or null-fileinfo events save no record either. -/
theorem audit_record_iff_transport_and_archive :
    ∀ (env : Env) (fs : FS) (h : Handler) (sfx : List Char) (src : String),
    env.connectR = Except.ok () →
    ((mimeCheck h.mime_types
          (env.mime_of (ospath_join h.source_dir (lastSeg src))) = Except.ok false →
        (process_added env fs h sfx src).map countSave = Except.ok 0)
    ∧ (∀ sel : PyVal,
        mimeCheck h.mime_types
            (env.mime_of (ospath_join h.source_dir (lastSeg src))) = Except.ok true →
        put env fs h (lastSeg src)
            (env.mime_of (ospath_join h.source_dir (lastSeg src)))
          = Except.ok (.pair none sel) →
        (process_added env fs h sfx src).map countSave = Except.ok 0)
    ∧ (∀ (fi : FileInfo) (sel : PyVal),
        mimeCheck h.mime_types
            (env.mime_of (ospath_join h.source_dir (lastSeg src))) = Except.ok true →
        put env fs h (lastSeg src)
            (env.mime_of (ospath_join h.source_dir (lastSeg src)))
          = Except.ok (.pair (some fi) sel) →
        h.archive_dir = none →
        ((process_added env fs h sfx src).map countSave = Except.ok 0
          ∧ process_added env fs h sfx src
              = Except.ok [Eff.connect,
                  Eff.remove (ospath_join h.source_dir (lastSeg src))]))
    ∧ (∀ (fi : FileInfo) (sel : PyVal) (ad : String) (hist : History),
        mimeCheck h.mime_types
            (env.mime_of (ospath_join h.source_dir (lastSeg src))) = Except.ok true →
        put env fs h (lastSeg src)
            (env.mime_of (ospath_join h.source_dir (lastSeg src)))
          = Except.ok (.pair (some fi) sel) →
        h.archive_dir = some ad →
        update_history env h
            { fi with archive_filename := some (archive_filename sfx (lastSeg src)) }
            TX_SENT sel (env.mime_of (ospath_join h.source_dir (lastSeg src)))
          = Except.ok hist →
        (process_added env fs h sfx src).map countSave = Except.ok 1)) := by
  intro env fs h sfx src hc
  refine ⟨?_, ?_, ?_, ?_⟩
  · intro hm
    simp [process_added, hc, hm, countSave, Eff.kind, Except.map]
  · intro sel hm hp
    simp [process_added, hc, hm, hp, countSave, Eff.kind, Except.map]
  · intro fi sel hm hp ha
    constructor <;> simp [process_added, hc, hm, hp, ha, countSave, Eff.kind, Except.map]
  · intro fi sel ad hist hm hp ha hu
    rw [process_added_archive_trace env fs h sfx src fi sel ad hist hc hm hp ha hu]
    simp [countSave, Eff.kind, Except.map]

/-- Claim C1, witness: a concrete successful no-archive transfer saves
zero History rows. -/
theorem audit_record_witness :
    (process_added envT fsT hT ['A', 'B', '1', '2', '3'] "in/report.csv").map
        countSave = Except.ok 0 := by
  have h := audit_record_iff_transport_and_archive envT fsT hT
    ['A', 'B', '1', '2', '3'] "in/report.csv" rfl
  exact (h.2.2.1 (statinfo fsT hT "in" "report.csv") (.str "/remote/in")
    rfl rfl rfl).1

/-- Claim C4 (amended): on a successful transfer with archiving enabled,
the archive name is generated and stored on the fileinfo before the
record is saved — so the record does capture the final archive filename —
but the physical rename into the archive directory happens after the
record is saved, not before. -/
theorem archive_name_captured_rename_after_record :
    ∀ (env : Env) (fs : FS) (h : Handler) (sfx : List Char) (src : String)
      (fi : FileInfo) (sel : PyVal) (ad : String) (hist : History),
    env.connectR = Except.ok () →
    mimeCheck h.mime_types
        (env.mime_of (ospath_join h.source_dir (lastSeg src))) = Except.ok true →
    put env fs h (lastSeg src)
        (env.mime_of (ospath_join h.source_dir (lastSeg src)))
      = Except.ok (.pair (some fi) sel) →
    h.archive_dir = some ad →
    update_history env h
        { fi with archive_filename := some (archive_filename sfx (lastSeg src)) }
        TX_SENT sel (env.mime_of (ospath_join h.source_dir (lastSeg src)))
      = Except.ok hist →
    (process_added env fs h sfx src
        = Except.ok [Eff.connect, Eff.saveHistory hist,
            Eff.rename (ospath_join h.source_dir (lastSeg src))
              (ospath_join ad (archive_filename sfx (lastSeg src)))])
    ∧ hist.archive_name
        = some ("archive/" ++ archive_filename sfx (lastSeg src)) := by
  intro env fs h sfx src fi sel ad hist hc hm hp ha hu
  refine ⟨process_added_archive_trace env fs h sfx src fi sel ad hist hc hm hp ha hu, ?_⟩
  exact update_history_archive_name env h _ TX_SENT sel _ hist ad _ ha rfl hu

/-- Claim C4, witness: the concrete archive-enabled run, with the fully
evaluated History row and trace. -/
theorem archive_trace_witness :
    process_added envT fsT hTA ['A', 'B', '1', '2', '3'] "in/report.csv"
      = Except.ok [Eff.connect, Eff.saveHistory histW4,
          Eff.rename "in/report.csv" "/arch/report_AB123.csv"]
    ∧ histW4.archive_name = some "archive/report_AB123.csv" := by
  exact archive_name_captured_rename_after_record envT fsT hTA
    ['A', 'B', '1', '2', '3'] "in/report.csv"
    (statinfo fsT hTA "in" "report.csv") (.str "/remote/in") "/arch" histW4
    rfl rfl rfl rfl rfl

/-- Claim C5: when the folder handler raises the not-a-callable TypeError
(the strategy is absent), select_destination_dir returns exactly the
configured destination_dir; every other exception propagates
unmodified. -/
theorem select_destination_fallback_and_propagation :
    ∀ (env : Env) (h : Handler) (filename mime : String),
    (∀ msg : String,
        env.select filename mime h.destination_dir = .error (.typeError msg) →
        listInfix ("object is not callable".toList) msg.toList = true →
        select_destination_dir env h filename mime = .ok (.str h.destination_dir))
    ∧ (∀ e : PyErr,
        env.select filename mime h.destination_dir = .error e →
        notCallable e = false →
        select_destination_dir env h filename mime = .error e) := by
  intro env h filename mime
  constructor
  · intro msg hsel hinf
    simp at hinf
    simp [select_destination_dir, hsel, hinf]
  · intro e hsel hnc
    cases e <;> simp_all [select_destination_dir, notCallable]

/-- Claim C5, witness: concrete fallback and concrete propagation. -/
theorem select_destination_fallback_witness :
    select_destination_dir envNC hT "f" "m" = Except.ok (.str "/remote/in")
    ∧ select_destination_dir envBoom hT "f" "m" = Except.error (.otherError "boom") := by
  refine ⟨?_, ?_⟩
  · exact (select_destination_fallback_and_propagation envNC hT "f" "m").1
      "NoneType object is not callable" rfl rfl
  · exact (select_destination_fallback_and_propagation envBoom hT "f" "m").2
      (.otherError "boom") rfl rfl

/-- Claim C6: for any five-character suffix drawn from the uppercase and
digit alphabet, the archive name for `sample.pdf` is
`sample_<suffix>.pdf`, the archive name for `noext` is `noext_<suffix>.`
with the empty extension segment preserved, the suffix characters all lie
in `[A-Z0-9]`, and any filename whose dot-split does not have exactly two
parts is treated as extension-less. -/
theorem archive_filename_suffix_shape :
    ∀ suffix : List Char, suffix.length = 5 →
    (∀ c ∈ suffix, upperAlnum.contains c = true) →
    ((archive_filename suffix "sample.pdf").toList
        = "sample_".toList ++ suffix ++ ".pdf".toList)
    ∧ ((archive_filename suffix "noext").toList
        = "noext_".toList ++ suffix ++ ".".toList)
    ∧ (∀ c ∈ suffix, isUpperOrDigit c = true)
    ∧ (∀ fn : String, (pySplit '.' fn).length ≠ 2 →
        (archive_filename suffix fn).toList
          = fn.toList ++ "_".toList ++ suffix ++ ".".toList) := by
  intro suffix hlen halpha
  refine ⟨?_, ?_, ?_, ?_⟩
  · have h1 : archive_filename suffix "sample.pdf"
        = "sample" ++ "_" ++ String.mk suffix ++ "." ++ "pdf" := rfl
    rw [h1]
    simp [tl_append, mk_toList]
  · have h1 : archive_filename suffix "noext"
        = "noext" ++ "_" ++ String.mk suffix ++ "." := rfl
    rw [h1]
    simp [tl_append, mk_toList]
  · intro c hc
    exact mem_upperAlnum c (halpha c hc)
  · intro fn hfn
    rcases hsp : pySplit '.' fn with _ | ⟨a, _ | ⟨b, _ | ⟨c, r⟩⟩⟩
    · simp [archive_filename, hsp, tl_append, mk_toList]
    · simp [archive_filename, hsp, tl_append, mk_toList]
    · rw [hsp] at hfn
      simp at hfn
    · simp [archive_filename, hsp, tl_append, mk_toList]

/-- Claim C6, witness: the concrete suffix `AB123`. -/
theorem archive_filename_suffix_shape_witness :
    (archive_filename ['A', 'B', '1', '2', '3'] "sample.pdf").toList
        = "sample_AB123.pdf".toList
    ∧ (archive_filename ['A', 'B', '1', '2', '3'] "noext").toList
        = "noext_AB123.".toList := by
  have h := archive_filename_suffix_shape ['A', 'B', '1', '2', '3']
    (by decide) (by decide)
  exact ⟨h.1.trans (by decide), h.2.1.trans (by decide)⟩

/-- Claim C8 (amended): the default pattern filter `['*.*']` dispatches a
change event exactly when the event is not for a directory and the source
path contains at least one dot; it never matches directories, but it also
never matches a dotless path. -/
theorem default_pattern_matches_iff_dot :
    ∀ (src_path : String) (is_directory : Bool),
    dispatchEvent is_directory src_path = true
      ↔ (is_directory = false ∧ '.' ∈ src_path.toList) := by
  intro p d
  have hpat : "*.*".toList = ['*', '.', '*'] := rfl
  simp [dispatchEvent, handlerPatterns, hpat, glob_star_dot_star]

/-- Claim C9 (amended): the folder hint recorded by update_history equals
the Python unpack of the selection — the second component of a
two-element sequence, the second character of a two-character string, and
absent (None) otherwise. -/
theorem folder_hint_matches_unpack_semantics :
    ∀ (env : Env) (h : Handler) (fi : FileInfo) (st : String) (sel : PyVal)
      (mime : String) (hist : History),
    update_history env h fi st sel mime = Except.ok hist →
    hist.remote_folder_hint = pyHint sel := by
  intro env h fi st sel mime hist hu
  rw [← unpackHint_eq_pyHint]
  cases hun : unpack2 sel with
  | error e => simp [update_history, hun] at hu
  | ok u =>
    cases ha : h.archive_dir with
    | none =>
      simp [update_history, hun, ha] at hu
      rw [← hu]
      simp only [unpackHint, hun]
      rcases u with _ | ⟨x, y⟩ <;> rfl
    | some ad =>
      cases haf : fi.archive_filename with
      | none => simp [update_history, hun, ha, haf] at hu
      | some a =>
        simp [update_history, hun, ha, haf] at hu
        rw [← hu]
        simp only [unpackHint, hun]
        rcases u with _ | ⟨x, y⟩ <;> rfl

/-- Claim C9, witness: for a genuine pair selection the recorded hint is
its second component, unchanged. -/
theorem folder_hint_unpack_witness :
    hist9W.remote_folder_hint
      = pyHint (PyVal.tup [PyVal.str "/remote/in/pdfs", PyVal.str "pdf"]) := by
  exact folder_hint_matches_unpack_semantics envT hT fiPlain "S"
    (PyVal.tup [PyVal.str "/remote/in/pdfs", PyVal.str "pdf"]) "m" hist9W rfl

/-- Claim C10: every History row saved by update_history carries
`remote_path` equal to the configured `destination_dir` attribute of the
handler, never the destination resolved by the routing strategy. -/
theorem remote_path_is_configured_destination :
    ∀ (env : Env) (h : Handler) (fi : FileInfo) (st : String) (sel : PyVal)
      (mime : String) (hist : History),
    update_history env h fi st sel mime = Except.ok hist →
    hist.remote_path = h.destination_dir := by
  intro env h fi st sel mime hist hu
  cases hun : unpack2 sel with
  | error e => simp [update_history, hun] at hu
  | ok u =>
    cases ha : h.archive_dir with
    | none =>
      simp [update_history, hun, ha] at hu
      rw [← hu]
    | some ad =>
      cases haf : fi.archive_filename with
      | none => simp [update_history, hun, ha, haf] at hu
      | some a =>
        simp [update_history, hun, ha, haf] at hu
        rw [← hu]

/-- Claim C10, witness: a routed-to subfolder selection leaves
remote_path equal to the configured destination. -/
theorem remote_path_witness :
    hist10W.remote_path = hT.destination_dir := by
  exact remote_path_is_configured_destination envT hT fiPlain "S"
    (PyVal.str "/remote/in/sub") "m" hist10W rfl
